import Mathlib

/-!
Shallow embedding of `src/extensions/default/HTMLCodeHints/html-lint.js`
(phcode-phoenix): the project-aware HTML-lint configuration orchestrator.

The JavaScript file keeps three module-level mutable variables
(`projectSpecificOptions`, `configErrorMessage`, `configID`) and wires up
asynchronous continuations.  The embedding renders every synchronous segment
between two suspension points as a pure function from the pre-state (plus the
values the host environment supplies at that moment: the current project
root, the active editor, the filesystem / worker answers) to the post-state
together with the outward effects (a "re-run lint" request, a worker request,
the settlement of the returned promise).

Host builtins that the file calls (`JSON.parse`, `path.join`,
`StringUtils.format`, the strings table) are modelled explicitly below, each
with a comment saying what it stands for.
-/

set_option autoImplicit false

namespace HtmlLint

/-- A JavaScript JSON value, as produced by the host's `JSON.parse`. -/
inductive JsValue where
  | null
  | bool (b : Bool)
  | num (n : Int)
  | str (s : String)
  | arr (elems : List JsValue)
  | obj (fields : List (String × JsValue))

/-- JavaScript truthiness of a JSON value (`if(config)` in the source). -/
def truthy : JsValue → Bool
  | JsValue.null => false
  | JsValue.bool b => b
  | JsValue.num n => n != 0
  | JsValue.str s => s != ""
  | JsValue.arr _ => true
  | JsValue.obj _ => true

/-- JavaScript truthiness of a possibly-unset string variable
(`if(configErrorMessage)` in the source): `null`/`undefined` and the empty
string are falsy. -/
def strTruthy : Option String → Bool
  | none => false
  | some s => s != ""

/-- `CONFIG_FILE_NAME` from the source. -/
def CONFIG_FILE_NAME : String := ".htmlvalidate.json"

/-- `UNSUPPORTED_CONFIG_FILES` from the source, in source order. -/
def UNSUPPORTED_CONFIG_FILES : List String := [".htmlvalidate.js", ".htmlvalidate.cjs"]

/-- Models the host runtime's `path.join(dir, name)` for a directory and a
file name: the host normalizes separators, the model inserts a single one. -/
def pathJoin (dir name : String) : String := dir ++ "/" ++ name

/-- Substitution of the `\x7b0\x7d` placeholder, written by structural
recursion on the character list so that concrete instances evaluate. -/
def substPlaceholder : List Char → List Char → List Char
  | [], _ => []
  | '\x7b' :: '0' :: '\x7d' :: rest, arg => arg ++ substPlaceholder rest arg
  | c :: rest, arg => c :: substPlaceholder rest arg

/-- Modelled from the spec: `StringUtils.format` (utils/StringUtils, not under
src/) substitutes the argument into the `\x7b0\x7d` placeholder of a message
template; the claims rely only on the produced message naming the argument. -/
def formatStr (template arg : String) : String :=
  String.mk (substPlaceholder template.data arg.data)

/-- Modelled from the spec: `Strings.HTML_LINT_CONFIG_JSON_ERROR` lives in the
strings table (not under src/); a user-facing template naming the offending
config file through its placeholder. -/
def HTML_LINT_CONFIG_JSON_ERROR : String :=
  "The HTML lint configuration file \x7b0\x7d could not be parsed, please fix the JSON syntax."

/-- Modelled from the spec: `Strings.HTML_LINT_CONFIG_UNSUPPORTED` lives in
the strings table (not under src/); a user-facing template naming the
unsupported config file through its placeholder. -/
def HTML_LINT_CONFIG_UNSUPPORTED : String :=
  "The HTML lint configuration file \x7b0\x7d is not supported, please use a JSON config file."

/-- `CodeInspection.Type` severity classes used by the file. -/
inductive InspectionType where
  | META
  | WARNING
  | ERROR
deriving Repr, DecidableEq

/-- `getTypeFromSeverity` from the source (`switch` on the raw severity). -/
def getTypeFromSeverity (sev : Int) : InspectionType :=
  if sev = 1 then InspectionType.WARNING
  else if sev = 2 then InspectionType.ERROR
  else InspectionType.META

/-- An editor position (`\x7bline, ch\x7d`). -/
structure Pos where
  line : Int
  ch : Int
deriving Repr, DecidableEq

/-- One diagnostic handed to the inspection framework.  `endPos` and
`moreInfoURL` are absent (`undefined`) on the synthetic config-error
diagnostic. -/
structure Diagnostic where
  pos : Pos
  endPos : Option Pos
  message : String
  type : InspectionType
  moreInfoURL : Option String
deriving Repr, DecidableEq

/-- The module-level mutable variables of the source file:
`projectSpecificOptions`, `configErrorMessage`, `configID` (declared on one
`let` line; `none` stands for both `undefined` and `null`). -/
structure LintGlobals where
  projectSpecificOptions : Option JsValue
  configErrorMessage : Option String
  configID : Nat

/-- `_getLinterConfigFileErrorMsg` from the source: a single diagnostic at the
out-of-range position `line -1`, carrying the current config error message
with severity ERROR. -/
def _getLinterConfigFileErrorMsg (st : LintGlobals) : List Diagnostic :=
  [{ pos := { line := -1, ch := 0 },
     endPos := none,
     message := st.configErrorMessage.getD "",
     type := InspectionType.ERROR,
     moreInfoURL := none }]

/-- The request `lintOneFile` sends over `IndexingWorker.execPeer("htmlLint", ...)`. -/
structure BackendRequest where
  text : String
  filePath : String
  configID : Nat
  config : Option JsValue

/-- What the synchronous part of `lintOneFile` does: either the promise
resolves at once with the synthetic config-error diagnostic, or the worker is
invoked. -/
inductive LintStart where
  | resolvedErrors (errors : List Diagnostic)
  | backendCall (req : BackendRequest)

/-- Synchronous prefix of `lintOneFile`: short-circuit on a set
`configErrorMessage`, otherwise invoke the worker with the current globals. -/
def lintOneFileStart (st : LintGlobals) (text fullPath : String) : LintStart :=
  if strTruthy st.configErrorMessage then
    LintStart.resolvedErrors (_getLinterConfigFileErrorMsg st)
  else
    LintStart.backendCall
      { text := text, filePath := fullPath, configID := st.configID,
        config := st.projectSpecificOptions }

/-- One raw finding in the worker's reply (absolute character offsets). -/
structure HtmlFinding where
  start : Nat
  «end» : Nat
  message : String
  ruleId : String
  severity : Int
  ruleUrl : Option String

/-- The active full editor as far as this file consults it:
`editor.document.file.fullPath` and `editor.posFromIndex`. -/
structure Editor where
  filePath : String
  posFromIndex : Nat → Pos

/-- The `\x7berrors: [...]\x7d` object `lintOneFile` resolves with. -/
structure ScanResult where
  errors : List Diagnostic

/-- How the promise returned by `lintOneFile` settles: `resolved none` is
`resolve()` (no problems), `resolved (some r)` is `resolve(\x7berrors\x7d)`,
`pending` means neither `resolve` nor `reject` is ever called. -/
inductive LintSettle where
  | resolved (result : Option ScanResult)
  | rejected (msg : String)
  | pending

/-- Outcome of the worker call: fulfilled with a (possibly absent) finding
list, or failed. -/
inductive BackendOutcome where
  | fulfilled (lintResult : Option (List HtmlFinding))
  | failed (err : String)

/-- The diagnostic built for one raw finding inside `lintResult.map` in the
source: positions via `editor.posFromIndex`, message composed as
`message (ruleId)`, severity classed by `getTypeFromSeverity`, `ruleUrl`
carried through. -/
def convertFinding (editor : Editor) (lintError : HtmlFinding) : Diagnostic :=
  { pos := editor.posFromIndex lintError.start,
    endPos := some (editor.posFromIndex lintError.«end»),
    message := lintError.message ++ " (" ++ lintError.ruleId ++ ")",
    type := getTypeFromSeverity lintError.severity,
    moreInfoURL := lintError.ruleUrl }

/-- The fulfillment continuation of the worker call inside `lintOneFile`.
`displayPath` is `ProjectManager.getProjectRelativeOrDisplayPath(fullPath)`,
`editor` is `EditorManager.getCurrentFullEditor()` at response time.  The
source ends the non-empty branch with `resolve(\x7berrors\x7d)` before the
trailing `resolve()`; in JavaScript the first settlement wins. -/
def lintOneFileThen (fullPath displayPath : String) (editor : Option Editor)
    (lintResult : Option (List HtmlFinding)) : LintSettle :=
  match editor with
  | none => LintSettle.rejected ("Lint failed as  " ++ displayPath ++ " is not active.")
  | some ed =>
    if ed.filePath ≠ fullPath then
      LintSettle.rejected ("Lint failed as  " ++ displayPath ++ " is not active.")
    else
      match lintResult with
      | some lst =>
        if lst.length ≠ 0 then
          LintSettle.resolved (some { errors := lst.map (convertFinding ed) })
        else
          LintSettle.resolved none
      | none => LintSettle.resolved none

/-- Settlement of `lintOneFile`'s promise as a function of the worker
outcome.  The source attaches only a fulfillment handler (`then` with no
rejection handler and no `catch`), so a failed worker call settles nothing. -/
def lintOneFileSettle (fullPath displayPath : String) (editor : Option Editor)
    (backend : BackendOutcome) : LintSettle :=
  match backend with
  | BackendOutcome.fulfilled lintResult => lintOneFileThen fullPath displayPath editor lintResult
  | BackendOutcome.failed _ => LintSettle.pending

/-- `FileSystemError` as far as `_readConfig` distinguishes it. -/
inductive FsError where
  | NOT_FOUND
  | other (code : String)
deriving Repr, DecidableEq

/-- Outcome of `DocumentManager.getDocumentForPath` for the config file:
`done` carries `configDoc.getText()`, `fail` the filesystem error. -/
inductive DocReadResult where
  | done (content : String)
  | fail (err : FsError)
deriving Repr, DecidableEq

/-- How the promise returned by `_readConfig` settles. -/
inductive ReadConfigResult where
  | resolved (config : JsValue)
  | rejected (msg : String)

/-- `_readConfig` from the source.  `parseJson` is the host's `JSON.parse`
(an oracle: `some v` when parsing yields `v`, `none` when it throws);
`displayPath` is `ProjectManager.getProjectRelativeOrDisplayPath` of the
config file path.  A parse failure rejects with the formatted JSON-error
message; `NOT_FOUND` resolves with `null`; any other read failure rejects
with the literal first argument of the `reject` call (its second argument is
discarded by JavaScript). -/
def _readConfig (parseJson : String → Option JsValue) (displayPath : String)
    (readResult : DocReadResult) : ReadConfigResult :=
  match readResult with
  | DocReadResult.done content =>
    match parseJson content with
    | some config => ReadConfigResult.resolved config
    | none => ReadConfigResult.rejected (formatStr HTML_LINT_CONFIG_JSON_ERROR displayPath)
  | DocReadResult.fail err =>
    if err = FsError.NOT_FOUND then
      ReadConfigResult.resolved JsValue.null
    else
      ReadConfigResult.rejected "Error reading JSHint Config File"

/-- Post-state and "re-run lint" signal of one continuation. -/
structure StepResult where
  st : LintGlobals
  requestRun : Bool

/-- `_validateUnsupportedConfig` from the source, after its `await` loop has
finished.  `fsExists` answers `FileSystem.existsAsync`; the loop keeps the
first unsupported file name that exists and formats the unsupported-config
message for it.  `currentRoot` is `ProjectManager.getProjectRoot().fullPath`
when the loop completes: on a mismatch the function returns without touching
state; otherwise it stores the (possibly absent) message and requests a lint
re-run unconditionally. -/
def _validateUnsupportedConfig (fsExists : String → Bool)
    (scanningProjectPath currentRoot : String) (st : LintGlobals) : StepResult :=
  let errorMessage :=
    (UNSUPPORTED_CONFIG_FILES.find? fun f => fsExists (pathJoin scanningProjectPath f)).map
      fun unsupportedFileName => formatStr HTML_LINT_CONFIG_UNSUPPORTED unsupportedFileName
  if scanningProjectPath ≠ currentRoot then
    { st := st, requestRun := false }
  else
    { st := { st with configErrorMessage := errorMessage }, requestRun := true }

/-- Synchronous prefix of `_reloadOptions`: clear both config fields and bump
`configID`.  The captured `scanningProjectPath` is the `currentRoot` argument
the caller passes to the continuations below. -/
def _reloadOptionsStart (st : LintGlobals) : LintGlobals :=
  { projectSpecificOptions := none, configErrorMessage := none, configID := st.configID + 1 }

/-- What a `_reloadOptions` continuation does next after updating state. -/
inductive ReloadNext where
  | done
  | runDetector (scanningProjectPath : String)
deriving Repr, DecidableEq

/-- Post-state, signal and follow-up action of a `_reloadOptions`
continuation. -/
structure ReloadStep where
  st : LintGlobals
  requestRun : Bool
  next : ReloadNext

/-- The fulfillment continuation of `_readConfig` inside `_reloadOptions`:
bump `configID`; abort when the project root moved away from the captured
`scanningProjectPath`; publish a truthy config and request a re-run; hand a
falsy config to `_validateUnsupportedConfig`. -/
def _reloadOnConfigResolved (scanningProjectPath : String) (config : JsValue)
    (currentRoot : String) (st : LintGlobals) : ReloadStep :=
  let st := { st with configID := st.configID + 1 }
  if scanningProjectPath ≠ currentRoot then
    { st := st, requestRun := false, next := ReloadNext.done }
  else if truthy config then
    { st := { st with projectSpecificOptions := some config, configErrorMessage := none },
      requestRun := true, next := ReloadNext.done }
  else
    { st := st, requestRun := false, next := ReloadNext.runDetector scanningProjectPath }

/-- The rejection continuation (`catch`) of `_readConfig` inside
`_reloadOptions`: bump `configID`; abort on a moved root; otherwise store the
failure message and request a re-run. -/
def _reloadOnConfigRejected (scanningProjectPath err currentRoot : String)
    (st : LintGlobals) : ReloadStep :=
  let st := { st with configID := st.configID + 1 }
  if scanningProjectPath ≠ currentRoot then
    { st := st, requestRun := false, next := ReloadNext.done }
  else
    { st := { st with configErrorMessage := some err }, requestRun := true,
      next := ReloadNext.done }

/-- `_isFileInArray` from the source: `false` on an absent array, otherwise a
scan for an exact path match. -/
def _isFileInArray (pathToMatch : String) (filePathArray : Option (List String)) : Bool :=
  match filePathArray with
  | none => false
  | some arr => arr.any fun filePath => filePath == pathToMatch

/-- `_projectFileChanged` from the source, reduced to whether it calls
`_reloadOptions`: the expected config file path is the current project root
joined with `CONFIG_FILE_NAME`, and a reload runs when the changed path
equals it or it occurs in the added or removed collections. -/
def _projectFileChanged (currentRoot : String) (changedPath : Option String)
    (added removed : Option (List String)) : Bool :=
  let configFilePath := pathJoin currentRoot CONFIG_FILE_NAME
  changedPath == some configFilePath
    || _isFileInArray configFilePath added
    || _isFileInArray configFilePath removed

/-- A concrete stand-in for the `JSON.parse` oracle, correct on the literals
the concrete examples below feed it. -/
def parseJsonSample : String → Option JsValue :=
  fun s =>
    if s = "null" then some JsValue.null
    else if s = "0" then some (JsValue.num 0)
    else if s = "true" then some (JsValue.bool true)
    else none

/-- Claim C1: for every reload cycle, if the current project root at the time
an asynchronous step resolves (the config-file read continuations, or the
unsupported-config existence checks) differs from the project root captured
when the reload started, the continuation discards its result:
`projectSpecificOptions` and `configErrorMessage` are left unchanged and no
"re-run lint" request is issued (and the detector is not started either). -/
theorem C1_stale_root_discards_result (sp currentRoot err : String) (config : JsValue)
    (st : LintGlobals) (fsExists : String → Bool) (h : sp ≠ currentRoot) :
    ((_reloadOnConfigResolved sp config currentRoot st).st.projectSpecificOptions
        = st.projectSpecificOptions
      ∧ (_reloadOnConfigResolved sp config currentRoot st).st.configErrorMessage
        = st.configErrorMessage
      ∧ (_reloadOnConfigResolved sp config currentRoot st).requestRun = false
      ∧ (_reloadOnConfigResolved sp config currentRoot st).next = ReloadNext.done)
    ∧ ((_reloadOnConfigRejected sp err currentRoot st).st.projectSpecificOptions
        = st.projectSpecificOptions
      ∧ (_reloadOnConfigRejected sp err currentRoot st).st.configErrorMessage
        = st.configErrorMessage
      ∧ (_reloadOnConfigRejected sp err currentRoot st).requestRun = false)
    ∧ ((_validateUnsupportedConfig fsExists sp currentRoot st).st = st
      ∧ (_validateUnsupportedConfig fsExists sp currentRoot st).requestRun = false) := by
  simp [_reloadOnConfigResolved, _reloadOnConfigRejected, _validateUnsupportedConfig, h]

/-- Witness for C1 at a concrete stale continuation. -/
theorem C1_stale_root_discards_result_witness :
    (_reloadOnConfigResolved "/a" JsValue.null "/b" ⟨none, some "e", 3⟩).requestRun = false :=
  (C1_stale_root_discards_result "/a" "/b" "err" JsValue.null ⟨none, some "e", 3⟩
    (fun _ => false) (by decide)).1.2.2.1

/-- Claim C2: if `configErrorMessage` holds a message when a lint request is
submitted, `lintOneFile` resolves at once with exactly one diagnostic whose
message is that string, whose severity is ERROR and whose position is the
out-of-range line `-1`, and the worker backend is not invoked (the result is
`resolvedErrors`, not `backendCall`). -/
theorem C2_config_error_short_circuits (st : LintGlobals) (text fullPath msg : String)
    (h1 : st.configErrorMessage = some msg) (h2 : msg ≠ "") :
    lintOneFileStart st text fullPath =
      LintStart.resolvedErrors
        [{ pos := { line := -1, ch := 0 }, endPos := none, message := msg,
           type := InspectionType.ERROR, moreInfoURL := none }] := by
  simp [lintOneFileStart, strTruthy, h1, h2, _getLinterConfigFileErrorMsg]

/-- Witness for C2 at a concrete state with an error message set. -/
theorem C2_config_error_short_circuits_witness :
    lintOneFileStart ⟨none, some "boom", 0⟩ "<html>" "/p/x.html" =
      LintStart.resolvedErrors
        [{ pos := { line := -1, ch := 0 }, endPos := none, message := "boom",
           type := InspectionType.ERROR, moreInfoURL := none }] :=
  C2_config_error_short_circuits ⟨none, some "boom", 0⟩ "<html>" "/p/x.html" "boom"
    rfl (by decide)

/-- Claim C4: when the worker response arrives and there is no current full
editor, or the current editor's document path differs from the request's
path, `lintOneFile` rejects with the stale-result error and produces no
diagnostics (the settlement is a rejection, which carries no result). -/
theorem C4_stale_document_rejected (fullPath displayPath : String) (editor : Option Editor)
    (lintResult : Option (List HtmlFinding))
    (h : ∀ ed, editor = some ed → ed.filePath ≠ fullPath) :
    lintOneFileThen fullPath displayPath editor lintResult
      = LintSettle.rejected ("Lint failed as  " ++ displayPath ++ " is not active.") := by
  cases editor with
  | none => rfl
  | some ed => simp [lintOneFileThen, h ed rfl]

/-- Witness for C4 with no active editor. -/
theorem C4_stale_document_rejected_witness :
    lintOneFileThen "/p/a.html" "a.html" none (some [])
      = LintSettle.rejected ("Lint failed as  " ++ "a.html" ++ " is not active.") :=
  C4_stale_document_rejected "/p/a.html" "a.html" none (some []) (fun _ h => by cases h)

/-- Claim C10: for a lint request that reaches the backend (no config error
set), the source attaches only a fulfillment handler to the worker promise,
so a failed backend call leaves the promise returned by `lintOneFile`
pending: no diagnostics, no error result, no settlement at all. -/
theorem C10_backend_failure_never_settles (st : LintGlobals)
    (text fullPath displayPath err : String) (editor : Option Editor)
    (h : st.configErrorMessage = none) :
    lintOneFileStart st text fullPath
        = LintStart.backendCall
            { text := text, filePath := fullPath, configID := st.configID,
              config := st.projectSpecificOptions }
    ∧ lintOneFileSettle fullPath displayPath editor (BackendOutcome.failed err)
        = LintSettle.pending := by
  exact ⟨by simp [lintOneFileStart, strTruthy, h], rfl⟩

/-- Witness for C10 at a concrete clean state and a failing backend. -/
theorem C10_backend_failure_never_settles_witness :
    lintOneFileSettle "/p/a.html" "a.html" none (BackendOutcome.failed "worker crashed")
      = LintSettle.pending :=
  (C10_backend_failure_never_settles ⟨none, none, 7⟩ "<html>" "/p/a.html" "a.html"
    "worker crashed" none rfl).2

/-- Claim C7: for a worker response that still matches the active document,
every raw finding becomes a diagnostic with positions translated through the
active editor's `posFromIndex`, message composed as `message (ruleId)`,
severity 1 mapped to WARNING, 2 to ERROR and anything else to META, and the
optional rule URL carried through; a response with zero findings (or an
absent finding list) resolves with an undefined result. -/
theorem C7_finding_conversion (fullPath displayPath : String) (ed : Editor)
    (findings : List HtmlFinding) (h : ed.filePath = fullPath) :
    (findings ≠ [] →
      lintOneFileThen fullPath displayPath (some ed) (some findings)
        = LintSettle.resolved (some { errors := findings.map (convertFinding ed) }))
    ∧ lintOneFileThen fullPath displayPath (some ed) (some []) = LintSettle.resolved none
    ∧ lintOneFileThen fullPath displayPath (some ed) none = LintSettle.resolved none
    ∧ (∀ e : HtmlFinding, convertFinding ed e
        = { pos := ed.posFromIndex e.start, endPos := some (ed.posFromIndex e.«end»),
            message := e.message ++ " (" ++ e.ruleId ++ ")",
            type := getTypeFromSeverity e.severity, moreInfoURL := e.ruleUrl })
    ∧ getTypeFromSeverity 1 = InspectionType.WARNING
    ∧ getTypeFromSeverity 2 = InspectionType.ERROR
    ∧ (∀ s : Int, s ≠ 1 → s ≠ 2 → getTypeFromSeverity s = InspectionType.META) := by
  refine ⟨?_, ?_, ?_, ?_, rfl, rfl, ?_⟩
  · intro hne
    simp [lintOneFileThen, h, hne]
  · simp [lintOneFileThen, h]
  · simp [lintOneFileThen, h]
  · intro e
    rfl
  · intro s h1 h2
    simp [getTypeFromSeverity, h1, h2]

/-- Witness for C7 at a concrete editor and a single severity-2 finding. -/
theorem C7_finding_conversion_witness :
    lintOneFileThen "/p/a.html" "a.html"
        (some ⟨"/p/a.html", fun i => ⟨0, (i : Int)⟩⟩)
        (some [⟨0, 3, "msg", "rule", 2, none⟩])
      = LintSettle.resolved (some ⟨[⟨⟨0, 0⟩, some ⟨0, 3⟩, "msg (rule)",
          InspectionType.ERROR, none⟩]⟩) := by
  have h := (C7_finding_conversion "/p/a.html" "a.html"
    ⟨"/p/a.html", fun i => ⟨0, (i : Int)⟩⟩ [⟨0, 3, "msg", "rule", 2, none⟩] rfl).1
    (by simp)
  exact h

/-- Claim C8: a filesystem change notification triggers a reload exactly when
the expected config file path (current project root joined with
`.htmlvalidate.json`) equals the changed path or occurs in the added or
removed collections. -/
theorem C8_change_router (currentRoot : String) (changedPath : Option String)
    (added removed : Option (List String)) :
    _projectFileChanged currentRoot changedPath added removed = true ↔
      (changedPath = some (pathJoin currentRoot CONFIG_FILE_NAME)
        ∨ (∃ l, added = some l ∧ pathJoin currentRoot CONFIG_FILE_NAME ∈ l)
        ∨ (∃ l, removed = some l ∧ pathJoin currentRoot CONFIG_FILE_NAME ∈ l)) := by
  unfold _projectFileChanged _isFileInArray
  cases added <;> cases removed <;>
    simp [List.any_eq_true, beq_iff_eq, or_assoc]

/-- Claim C9: `_reloadOptions` starts by clearing both config fields and
incrementing `configID`; each config-read continuation (success and failure)
increments it again; the detector continuation leaves it unchanged; and no
modelled operation decreases it, so the counter is monotone along every
execution. -/
theorem C9_generation_counter (sp err currentRoot : String) (config : JsValue)
    (st : LintGlobals) (fsExists : String → Bool) :
    ((_reloadOptionsStart st).projectSpecificOptions = none
      ∧ (_reloadOptionsStart st).configErrorMessage = none
      ∧ (_reloadOptionsStart st).configID = st.configID + 1)
    ∧ (_reloadOnConfigResolved sp config currentRoot st).st.configID = st.configID + 1
    ∧ (_reloadOnConfigRejected sp err currentRoot st).st.configID = st.configID + 1
    ∧ (_validateUnsupportedConfig fsExists sp currentRoot st).st.configID = st.configID
    ∧ st.configID ≤ (_reloadOptionsStart st).configID
    ∧ st.configID ≤ (_reloadOnConfigResolved sp config currentRoot st).st.configID
    ∧ st.configID ≤ (_reloadOnConfigRejected sp err currentRoot st).st.configID
    ∧ st.configID ≤ (_validateUnsupportedConfig fsExists sp currentRoot st).st.configID := by
  have hres : (_reloadOnConfigResolved sp config currentRoot st).st.configID
      = st.configID + 1 := by
    unfold _reloadOnConfigResolved
    split
    · rfl
    · split <;> rfl
  have hrej : (_reloadOnConfigRejected sp err currentRoot st).st.configID
      = st.configID + 1 := by
    unfold _reloadOnConfigRejected
    split <;> rfl
  have hval : (_validateUnsupportedConfig fsExists sp currentRoot st).st.configID
      = st.configID := by
    unfold _validateUnsupportedConfig
    split <;> rfl
  refine ⟨⟨rfl, rfl, rfl⟩, hres, hrej, hval, Nat.le_succ _, ?_, ?_, ?_⟩
  · rw [hres]
    exact Nat.le_succ _
  · rw [hrej]
    exact Nat.le_succ _
  · rw [hval]

/-- Claim C3 is refuted as stated: a config file whose content is the valid
JSON text `null` parses to the JSON null value, so `_readConfig` resolves
with null although the read did not fail with NOT_FOUND — "resolves with null
exactly when the read fails with the not-found error" has a false
only-if direction. -/
theorem C3_counterexample :
    _readConfig parseJsonSample "dp" (DocReadResult.done "null")
        = ReadConfigResult.resolved JsValue.null
      ∧ DocReadResult.done "null" ≠ DocReadResult.fail FsError.NOT_FOUND := by
  exact ⟨rfl, by decide⟩

/-- Claim C3 (amended): the loader resolves with the parsed value on valid
JSON, rejects with the formatted message naming the display path on a parse
failure, resolves with null on NOT_FOUND, rejects with a fixed message on any
other I/O error; and it resolves with null exactly when the read failed with
NOT_FOUND or the file's content parsed to JSON null. -/
theorem C3_read_config_classification (parseJson : String → Option JsValue)
    (displayPath : String) (readResult : DocReadResult) :
    (∀ content config, readResult = DocReadResult.done content →
        parseJson content = some config →
        _readConfig parseJson displayPath readResult = ReadConfigResult.resolved config)
    ∧ (∀ content, readResult = DocReadResult.done content → parseJson content = none →
        _readConfig parseJson displayPath readResult
          = ReadConfigResult.rejected (formatStr HTML_LINT_CONFIG_JSON_ERROR displayPath))
    ∧ (readResult = DocReadResult.fail FsError.NOT_FOUND →
        _readConfig parseJson displayPath readResult = ReadConfigResult.resolved JsValue.null)
    ∧ (∀ code, readResult = DocReadResult.fail (FsError.other code) →
        _readConfig parseJson displayPath readResult
          = ReadConfigResult.rejected "Error reading JSHint Config File")
    ∧ (_readConfig parseJson displayPath readResult = ReadConfigResult.resolved JsValue.null
        ↔ (readResult = DocReadResult.fail FsError.NOT_FOUND
            ∨ ∃ content, readResult = DocReadResult.done content
                ∧ parseJson content = some JsValue.null)) := by
  refine ⟨?_, ?_, ?_, ?_, ?_⟩
  · rintro content config rfl hp
    simp [_readConfig, hp]
  · rintro content rfl hp
    simp [_readConfig, hp]
  · rintro rfl
    rfl
  · rintro code rfl
    simp [_readConfig]
  · cases readResult with
    | done content =>
      cases hp : parseJson content with
      | none => simp [_readConfig, hp]
      | some v => simp [_readConfig, hp]
    | fail err =>
      cases err with
      | NOT_FOUND => simp [_readConfig]
      | other code => simp [_readConfig]

/-- Witness for the amended C3 at the concrete NOT_FOUND input. -/
theorem C3_read_config_classification_witness :
    _readConfig parseJsonSample "dp" (DocReadResult.fail FsError.NOT_FOUND)
      = ReadConfigResult.resolved JsValue.null :=
  (C3_read_config_classification parseJsonSample "dp"
    (DocReadResult.fail FsError.NOT_FOUND)).2.2.1 rfl

/-- Claim C5 is refuted in its "runs only on null" part: a config file whose
valid JSON content is `0` makes the loader resolve with the falsy value `0`
(not null), yet the resolve continuation still hands control to the
unsupported-config detector, which then reports an unsupported file that is
also present — so a project with a valid (but falsy) primary config does get
an unsupported-format error. -/
theorem C5_counterexample :
    _readConfig parseJsonSample "dp" (DocReadResult.done "0")
        = ReadConfigResult.resolved (JsValue.num 0)
      ∧ JsValue.num 0 ≠ JsValue.null
      ∧ (_reloadOnConfigResolved "/p" (JsValue.num 0) "/p" ⟨none, none, 1⟩).next
          = ReloadNext.runDetector "/p"
      ∧ (_validateUnsupportedConfig (fun q => q == pathJoin "/p" ".htmlvalidate.js")
            "/p" "/p" ⟨none, none, 2⟩).st.configErrorMessage
          = some (formatStr HTML_LINT_CONFIG_UNSUPPORTED ".htmlvalidate.js") := by
  refine ⟨rfl, ?_, rfl, by decide⟩
  intro h
  cases h

/-- Claim C5 (amended): the detector checks `.htmlvalidate.js` before
`.htmlvalidate.cjs` and reports the first one present (none present: no
error); and the resolve continuation starts the detector exactly when the
loader's resolved value is falsy (null, false, 0 or the empty string) while
the project root still matches — a truthy primary config skips it. -/
theorem C5_unsupported_detector_priority (fsExists : String → Bool)
    (sp currentRoot : String) (st : LintGlobals) (config : JsValue) :
    (sp = currentRoot → fsExists (pathJoin sp ".htmlvalidate.js") = true →
      (_validateUnsupportedConfig fsExists sp currentRoot st).st.configErrorMessage
        = some (formatStr HTML_LINT_CONFIG_UNSUPPORTED ".htmlvalidate.js"))
    ∧ (sp = currentRoot → fsExists (pathJoin sp ".htmlvalidate.js") = false →
        fsExists (pathJoin sp ".htmlvalidate.cjs") = true →
      (_validateUnsupportedConfig fsExists sp currentRoot st).st.configErrorMessage
        = some (formatStr HTML_LINT_CONFIG_UNSUPPORTED ".htmlvalidate.cjs"))
    ∧ (sp = currentRoot → fsExists (pathJoin sp ".htmlvalidate.js") = false →
        fsExists (pathJoin sp ".htmlvalidate.cjs") = false →
      (_validateUnsupportedConfig fsExists sp currentRoot st).st.configErrorMessage = none)
    ∧ ((_reloadOnConfigResolved sp config currentRoot st).next
          = ReloadNext.runDetector sp
        ↔ (sp = currentRoot ∧ truthy config = false)) := by
  refine ⟨?_, ?_, ?_, ?_⟩
  · rintro rfl h1
    simp [_validateUnsupportedConfig, UNSUPPORTED_CONFIG_FILES, List.find?, h1]
  · rintro rfl h1 h2
    simp [_validateUnsupportedConfig, UNSUPPORTED_CONFIG_FILES, List.find?, h1, h2]
  · rintro rfl h1 h2
    simp [_validateUnsupportedConfig, UNSUPPORTED_CONFIG_FILES, List.find?, h1, h2]
  · unfold _reloadOnConfigResolved
    rcases eq_or_ne sp currentRoot with heq | hne
    · subst heq
      by_cases ht : truthy config
      · simp [ht]
      · simp [ht]
    · simp [hne]

/-- Witness for the amended C5 with both unsupported files present. -/
theorem C5_unsupported_detector_priority_witness :
    (_validateUnsupportedConfig (fun _ => true) "/p" "/p"
        ⟨none, none, 2⟩).st.configErrorMessage
      = some (formatStr HTML_LINT_CONFIG_UNSUPPORTED ".htmlvalidate.js") :=
  (C5_unsupported_detector_priority (fun _ => true) "/p" "/p" ⟨none, none, 2⟩
    JsValue.null).1 rfl rfl

/-- Claim C6 is refuted in its "no re-run" part: when the detector finds no
unsupported file and the project root still matches, both fields are indeed
left cleared, but the source still calls `CodeInspection.requestRun` — the
re-run request is issued unconditionally once the root check passes. -/
theorem C6_counterexample :
    (_validateUnsupportedConfig (fun _ => false) "/p" "/p" ⟨none, none, 3⟩).requestRun = true
      ∧ (_validateUnsupportedConfig (fun _ => false) "/p" "/p"
          ⟨none, none, 3⟩).st.configErrorMessage = none
      ∧ (_validateUnsupportedConfig (fun _ => false) "/p" "/p"
          ⟨none, none, 3⟩).st.projectSpecificOptions = none := by
  exact ⟨rfl, rfl, rfl⟩

/-- Claim C6 (amended): when the config read resolves with null and the root
still matches, the detector runs; at the detector's completion, if the root
still matches, `configErrorMessage` is set to the formatted message for the
first unsupported file present (cleared when none is), `projectSpecificOptions`
is untouched, and a re-run is requested in both cases; only a root mismatch
leaves the state untouched and suppresses the re-run request. -/
theorem C6_null_config_detector_flow (fsExists : String → Bool) (sp currentRoot : String)
    (st : LintGlobals) :
    ((_reloadOnConfigResolved sp JsValue.null currentRoot st).next
        = if sp = currentRoot then ReloadNext.runDetector sp else ReloadNext.done)
    ∧ (sp = currentRoot →
        ((_validateUnsupportedConfig fsExists sp currentRoot st).st.configErrorMessage
            = ((UNSUPPORTED_CONFIG_FILES.find? fun f => fsExists (pathJoin sp f)).map
                fun f => formatStr HTML_LINT_CONFIG_UNSUPPORTED f)
          ∧ (_validateUnsupportedConfig fsExists sp currentRoot st).st.projectSpecificOptions
            = st.projectSpecificOptions
          ∧ (_validateUnsupportedConfig fsExists sp currentRoot st).requestRun = true))
    ∧ (sp ≠ currentRoot →
        ((_validateUnsupportedConfig fsExists sp currentRoot st).st = st
          ∧ (_validateUnsupportedConfig fsExists sp currentRoot st).requestRun = false)) := by
  refine ⟨?_, ?_, ?_⟩
  · unfold _reloadOnConfigResolved
    rcases eq_or_ne sp currentRoot with heq | hne
    · subst heq
      simp [truthy]
    · simp [hne]
  · rintro rfl
    simp [_validateUnsupportedConfig]
  · intro hne
    simp [_validateUnsupportedConfig, hne]

/-- Witness for the amended C6 at a matching root with no unsupported file. -/
theorem C6_null_config_detector_flow_witness :
    (_validateUnsupportedConfig (fun _ => false) "/p" "/p" ⟨none, none, 3⟩).requestRun
      = true :=
  ((C6_null_config_detector_flow (fun _ => false) "/p" "/p" ⟨none, none, 3⟩).2.1 rfl).2.2

end HtmlLint
